import Mathlib

/-!
# Verification of the mcmod-manager resolution-and-retrieval pipeline

Shallow embedding of the core of the `mcmod-manager` repository
(`src/mcmod_manager/`): the `Result` primitive (`result.py`), the domain
dataclasses (`mod_classes.py`), the Labrinth transport/session logic
(`mod_session.py`) and the batch orchestration (`cli.py`).

Conventions of the embedding:
* Python values that can raise are modelled in `Except String`, the error
  carrying the Python exception rendering; the repository's own `Result`
  class is modelled by the `Result` inductive below.
* The network is a pure environment `Env`: a function from an HTTP request
  (url and query parameters) to a `Response`.  Each session operation
  returns, next to its value, the list of HTTP calls it performed, so that
  "no further request was made" is a provable statement.
* Console printing (`print`, `_overprint`) is presentation only (spec §1
  excludes it) and is dropped; `inspect`/`inspect_err` return `self`.
-/

/-- A single-quote character as a string, used to render Python `repr` output. -/
def pyQuote : String := String.singleton (Char.ofNat 39)

/-- Python `repr` of a string: wrapped in single quotes.  (The escaping Python
performs inside the quotes is not needed for the strings in this development.) -/
def pyRepr (s : String) : String := pyQuote ++ s ++ pyQuote

/-! ## Python string ordering

Python compares strings lexicographically by code point.  The `sorted` key in
`mod_session.py` is the `published` ISO-8601 string, so the embedding carries
the comparison explicitly (as a computable function, so concrete runs reduce). -/

/-- Lexicographic strict comparison of char lists by code point, as Python
compares strings. -/
def pyLtChars : List Char → List Char → Bool
  | [], [] => false
  | [], _ :: _ => true
  | _ :: _, [] => false
  | a :: as, b :: bs =>
    if a.toNat < b.toNat then true
    else if b.toNat < a.toNat then false
    else pyLtChars as bs

/-- Python `x < y` on strings. -/
def pyLt (x y : String) : Bool := pyLtChars x.toList y.toList

/-- Python `x <= y` on strings (total order: `x <= y ↔ ¬ y < x`). -/
def pyLe (x y : String) : Bool := !(pyLt y x)

/-- Python `str.lower` on one character, for the ASCII range (the catalog's
enum tokens are ASCII). -/
def pyLowerChar (c : Char) : Char :=
  if 65 <= c.toNat && c.toNat <= 90 then Char.ofNat (c.toNat + 32) else c

/-- Python `s.lower()` (ASCII lowercasing, which covers the catalog's enum
token strings the source applies it to). -/
def pyLower (s : String) : String := String.mk (s.toList.map pyLowerChar)

/-! ## Domain dataclasses (`mod_classes.py`) -/

/-- `mod_classes.LoaderKind`: closed string enumeration of mod loaders. -/
inductive LoaderKind
  | babric | btaBabric | bukkit | bungeecord | canvas | datapack | fabric
  | folia | forge | iris | javaAgent | legacyFabric | liteloader | minecraft
  | modloader | neoforge | nilloader | optifine | ornithe | paper | purpur
  | quilt | rift | spigot | sponge | vanilla | velocity | waterfall
deriving DecidableEq, Inhabited, BEq, Repr

/-- The `StrEnum` value of each loader kind (lowercase member name, with the
explicit values `bta-babric`, `java-agent`, `legacy-fabric` from the source). -/
def LoaderKind.value : LoaderKind → String
  | .babric => "babric"
  | .btaBabric => "bta-babric"
  | .bukkit => "bukkit"
  | .bungeecord => "bungeecord"
  | .canvas => "canvas"
  | .datapack => "datapack"
  | .fabric => "fabric"
  | .folia => "folia"
  | .forge => "forge"
  | .iris => "iris"
  | .javaAgent => "java-agent"
  | .legacyFabric => "legacy-fabric"
  | .liteloader => "liteloader"
  | .minecraft => "minecraft"
  | .modloader => "modloader"
  | .neoforge => "neoforge"
  | .nilloader => "nilloader"
  | .optifine => "optifine"
  | .ornithe => "ornithe"
  | .paper => "paper"
  | .purpur => "purpur"
  | .quilt => "quilt"
  | .rift => "rift"
  | .spigot => "spigot"
  | .sponge => "sponge"
  | .vanilla => "vanilla"
  | .velocity => "velocity"
  | .waterfall => "waterfall"

/-- All loader kinds, in declaration order. -/
def LoaderKind.all : List LoaderKind :=
  [.babric, .btaBabric, .bukkit, .bungeecord, .canvas, .datapack, .fabric,
   .folia, .forge, .iris, .javaAgent, .legacyFabric, .liteloader, .minecraft,
   .modloader, .neoforge, .nilloader, .optifine, .ornithe, .paper, .purpur,
   .quilt, .rift, .spigot, .sponge, .vanilla, .velocity, .waterfall]

/-- `LoaderKind(s)`: the `StrEnum` value lookup; raises `ValueError` for an
unknown value string. -/
def LoaderKind.ofString (s : String) : Except String LoaderKind :=
  match LoaderKind.all.find? (fun k => k.value == s) with
  | some k => .ok k
  | none => .error ("ValueError: " ++ pyRepr s ++ " is not a valid LoaderKind")

/-- `mod_classes.DependencyKind`. -/
inductive DependencyKind
  | required | optional | incompatible | embedded
deriving DecidableEq, Inhabited, BEq, Repr

/-- The `StrEnum` value of each dependency kind. -/
def DependencyKind.value : DependencyKind → String
  | .required => "required"
  | .optional => "optional"
  | .incompatible => "incompatible"
  | .embedded => "embedded"

/-- All dependency kinds. -/
def DependencyKind.all : List DependencyKind :=
  [.required, .optional, .incompatible, .embedded]

/-- `DependencyKind(s)`: `StrEnum` value lookup; `ValueError` if unknown. -/
def DependencyKind.ofString (s : String) : Except String DependencyKind :=
  match DependencyKind.all.find? (fun k => k.value == s) with
  | some k => .ok k
  | none => .error ("ValueError: " ++ pyRepr s ++ " is not a valid DependencyKind")

/-- `mod_classes.FileLink`. -/
structure FileLink where
  url : String
  filename : String
deriving DecidableEq, Inhabited, Repr

/-- `mod_classes.VersionDependency`. -/
structure VersionDependency where
  version_id : String
  project_id : String
  file_name : String
  kind : DependencyKind
deriving DecidableEq, Inhabited, Repr

/-- `mod_classes.ModrinthProjectVersion`.  Note the field names: the dataclass
declares the plural `loaders` and `game_versions`; it has no singular
`loader`/`game_version` attribute. -/
structure ModrinthProjectVersion where
  name : String
  id_ : String
  project_id : String
  loaders : List LoaderKind
  game_versions : List String
  version : String
  files : List FileLink
  published : String
  dependencies : List VersionDependency
deriving DecidableEq, Inhabited, Repr

/-- `mod_config.ProjectVersion`: one configured project request.  (The config
loader may leave `loader`/`game_version` as `None` when defaults are enabled;
the resolution claims exercise requests with concrete fields, matching the
parameter annotations of `LabrinthSession.get_project_version`.) -/
structure ProjectVersion where
  name : String
  loader : LoaderKind
  game_version : String
deriving DecidableEq, Inhabited, Repr

/-- `mod_config.MCModsConfig`. -/
structure MCModsConfig where
  game_version : String
  loader : LoaderKind
  api_url : String
  projects : List ProjectVersion
  optional_projects : List ProjectVersion
deriving Inhabited

/-! ## The `Result` primitive (`result.py`)

A Python value of the `Result` family is an instance of exactly `Ok` or `Err`
(the abstract base raises on any use, see the base-class stubs below). -/

/-- The two concrete classes `Ok`/`Err` of `result.py` as a sum type. -/
inductive Result (O E : Type) where
  | Ok (inner : O)
  | Err (inner : E)
deriving DecidableEq, Repr

/-- `Ok.is_ok` / `Err.is_ok`. -/
def Result.is_ok : Result O E → Bool
  | .Ok _ => true
  | .Err _ => false

/-- `Ok.is_err` / `Err.is_err`. -/
def Result.is_err : Result O E → Bool
  | .Ok _ => false
  | .Err _ => true

/-- `Ok.ok` / `Err.ok`: convert to the contained `Ok` value or `None`. -/
def Result.ok : Result O E → Option O
  | .Ok v => some v
  | .Err _ => none

/-- `Ok.err` / `Err.err`: convert to the contained `Err` value or `None`. -/
def Result.err : Result O E → Option E
  | .Ok _ => none
  | .Err e => some e

/-- `Ok.expect` / `Err.expect`: the contained `Ok` value, or raise `TypeError`
with `f"expect: {message}: {self!r}"` (stated for string errors, the only
error type the repository uses at `expect` call sites). -/
def Result.expect : Result O String → String → Except String O
  | .Ok v, _ => .ok v
  | .Err e, message => .error ("expect: " ++ message ++ ": Err(" ++ pyRepr e ++ ")")

/-- The dynamic return of Python `map`: `Ok.map` returns the bare
`function(self.inner)` (line 154 of `result.py`: `return function(self.inner)`,
with no `Ok` wrapper), while `Err.map` returns `self`.  The two shapes are
distinguished here because a bare mapped value is not a `Result` object. -/
inductive PyMapRet (U E : Type) where
  | raw (u : U)
  | res (r : Result U E)
deriving DecidableEq, Repr

/-- `Ok.map` / `Err.map` as written in the source: the `Ok` branch returns the
bare `function(self.inner)`; the `Err` branch returns `self` unchanged. -/
def Result.map : Result O E → (O → U) → PyMapRet U E
  | .Ok v, f => .raw (f v)
  | .Err e, _ => .res (.Err e)

/-! ### The abstract `Result` base class (`result.py` lines 11-103)

Every method body of the base class is exactly `raise ResultError`, regardless
of the receiver or the arguments, so each method is embedded as the constant
computation that raises; receiver and argument parameters are omitted because
the bodies never consult them. -/

/-- The message `ResultError.__init__` installs. -/
def result_type_error_msg : String :=
  "Do not use the Result type. Use Ok() or Err() instead."

/-- `Result.__init__`: always raises `ResultError`, so no instance of the base
class can be constructed. -/
def result_base_init : Except String Unit := .error result_type_error_msg

/-- `Result.__repr__`. -/
def result_base_repr : Except String String := .error result_type_error_msg

/-- `Result.is_ok`. -/
def result_base_is_ok : Except String Bool := .error result_type_error_msg

/-- `Result.is_ok_and`. -/
def result_base_is_ok_and : Except String Bool := .error result_type_error_msg

/-- `Result.is_err`. -/
def result_base_is_err : Except String Bool := .error result_type_error_msg

/-- `Result.is_err_and`. -/
def result_base_is_err_and : Except String Bool := .error result_type_error_msg

/-- `Result.inspect`. -/
def result_base_inspect (O E : Type) : Except String (Result O E) :=
  .error result_type_error_msg

/-- `Result.inspect_err`. -/
def result_base_inspect_err (O E : Type) : Except String (Result O E) :=
  .error result_type_error_msg

/-- `Result.ok`. -/
def result_base_ok (O : Type) : Except String (Option O) :=
  .error result_type_error_msg

/-- `Result.err`. -/
def result_base_err (E : Type) : Except String (Option E) :=
  .error result_type_error_msg

/-- `Result.map`. -/
def result_base_map (U E : Type) : Except String (Result U E) :=
  .error result_type_error_msg

/-- `Result.map_or`. -/
def result_base_map_or (U E : Type) : Except String (Result U E) :=
  .error result_type_error_msg

/-- `Result.map_err`. -/
def result_base_map_err (O U : Type) : Except String (Result O U) :=
  .error result_type_error_msg

/-- `Result.expect`. -/
def result_base_expect (O : Type) : Except String O := .error result_type_error_msg

/-- `Result.unwrap`. -/
def result_base_unwrap (O : Type) : Except String O := .error result_type_error_msg

/-- `Result.expect_err`. -/
def result_base_expect_err (O : Type) : Except String O :=
  .error result_type_error_msg

/-- `Result.unwrap_err`. -/
def result_base_unwrap_err (O : Type) : Except String O :=
  .error result_type_error_msg

/-! ## Transport layer (`mod_session.py`)

The catalog JSON a version query returns is modelled as already-deserialized
records (`RawEntry`, mirroring the JSON object fields named in spec §6);
`_to_project_version` then parses them into `ModrinthProjectVersion`s exactly
as the source does, including the fallible `StrEnum` constructions. -/

/-- One entry of `files[]` in a raw catalog version object. -/
structure RawFile where
  url : String
  filename : String
deriving DecidableEq, Inhabited, Repr

/-- One entry of `dependencies[]` in a raw catalog version object. -/
structure RawDep where
  version_id : String
  project_id : String
  file_name : String
  dependency_type : String
deriving DecidableEq, Inhabited, Repr

/-- One raw catalog version object (`response.json()` list element). -/
structure RawEntry where
  name : String
  id : String
  project_id : String
  version_number : String
  files : List RawFile
  game_versions : List String
  loaders : List String
  date_published : String
  dependencies : List RawDep
deriving DecidableEq, Inhabited, Repr

/-- A `requests.Response`: HTTP status, decoded text, raw body bytes and, for
catalog version queries, the parsed JSON list.  In the `requests` library
`text` is the decoding of `content` under the response's charset, so the two
fields are related but distinct; claims that rely on that relation state it as
an explicit hypothesis. -/
structure Response where
  status_code : Nat
  text : String
  content : List Nat
  json : List RawEntry
deriving Inhabited

/-- Python truthiness of a `Response` (`Response.__bool__` is `Response.ok`):
true exactly when the status code is below 400. -/
def Response.ok (r : Response) : Bool := r.status_code < 400

/-- One HTTP request made through the session: absolute url and query
parameters (already rendered to strings, as `requests` receives them). -/
structure HttpCall where
  url : String
  params : List (String × String)
deriving DecidableEq, Repr

/-- The network environment: the base url held by the `LabrinthSession` and a
pure response function (one `Response` per request). -/
structure Env where
  baseUrl : String
  respond : String → List (String × String) → Response

/-- The query parameters `LabrinthSession._get_project_version` builds:
`loaders=["<loader>"]` and `game_versions=["<game_version>"]`. -/
def queryParams (game_version loaderValue : String) : List (String × String) :=
  [("loaders", "[\"" ++ loaderValue ++ "\"]"),
   ("game_versions", "[\"" ++ game_version ++ "\"]")]

/-- The url of a version query: `self.url + f"v2/project/{project}/version"`. -/
def versionQueryUrl (env : Env) (project : String) : String :=
  env.baseUrl ++ "v2/project/" ++ project ++ "/version"

/-- The response the environment gives to one version query
(`LabrinthSession._get_project_version`). -/
def versionQueryResponse (env : Env) (project game_version : String)
    (loader : LoaderKind) : Response :=
  env.respond (versionQueryUrl env project) (queryParams game_version loader.value)

/-- The `HttpCall` record of one version query. -/
def versionQueryCall (env : Env) (project game_version : String)
    (loader : LoaderKind) : HttpCall :=
  { url := versionQueryUrl env project,
    params := queryParams game_version loader.value }

/-- `mod_session._to_file_link`. -/
def to_file_link (data : RawFile) : FileLink :=
  { url := data.url, filename := data.filename }

/-- `mod_session._to_version_dependency`: builds a `VersionDependency`;
`DependencyKind(data["dependency_type"].lower())` raises `ValueError` for an
unknown kind string. -/
def to_version_dependency (data : RawDep) : Except String VersionDependency := do
  let kind ← DependencyKind.ofString (pyLower data.dependency_type)
  return { version_id := data.version_id, project_id := data.project_id,
           file_name := data.file_name, kind := kind }

/-- `mod_session._to_project_version`: builds a `ModrinthProjectVersion`;
`LoaderKind(each.lower())` and the dependency parse may raise `ValueError`. -/
def to_project_version (data : RawEntry) : Except String ModrinthProjectVersion := do
  let loaders ← data.loaders.mapM (fun each => LoaderKind.ofString (pyLower each))
  let dependencies ← data.dependencies.mapM to_version_dependency
  return { name := data.name, id_ := data.id, project_id := data.project_id,
           version := data.version_number,
           files := data.files.map to_file_link,
           game_versions := data.game_versions,
           loaders := loaders,
           published := data.date_published,
           dependencies := dependencies }

/-- `mod_session._response_str`. -/
def response_str (r : Response) : String :=
  "Response(status_code=" ++ toString r.status_code ++ ", text="
    ++ pyRepr r.text ++ ")"

/-! ### The widened-game-version expression (`mod_session.py` line 93)

`x_game_version = game_version.rsplit(".", 1) + ".x"` adds a `list` (the
result of `rsplit`) and a `str`, which Python rejects with a `TypeError`.  The
dynamic values involved are modelled explicitly. -/

/-- A Python value at the widening expression: a string or a list of strings. -/
inductive PyVal where
  | str (s : String)
  | list (xs : List String)
deriving DecidableEq, Repr

/-- Python `+` on the values above: concatenates two strings or two lists;
a `list + str` (or `str + list`) raises `TypeError`. -/
def pyAdd (a b : PyVal) : Except String PyVal :=
  match a, b with
  | .str x, .str y => .ok (.str (x ++ y))
  | .list x, .list y => .ok (.list (x ++ y))
  | .list _, .str _ =>
    .error "TypeError: can only concatenate list (not \"str\") to list"
  | .str _, .list _ =>
    .error "TypeError: can only concatenate str (not \"list\") to str"

/-- Python `str()` of such a value (used only on the dead retry path). -/
def pyStr : PyVal → String
  | .str s => s
  | .list xs => "[" ++ String.intercalate ", " (xs.map pyRepr) ++ "]"

/-- Python `s.rsplit(".", 1)`: split at most once, from the right. -/
def rsplitOnceDot (s : String) : List String :=
  match s.toList.reverse.span (fun c => c != '.') with
  | (_, []) => [s]
  | (sufRev, _ :: preRev) => [String.mk preRev.reverse, String.mk sufRev.reverse]

/-! ### Version selection (`mod_session.py` line 100)

`sorted(versions, key=lambda x: x.published)[-1]` — Python's `sorted` is a
stable ascending sort, and a stable sort by a fixed key is a unique function
of its input list; it is embedded as a left fold of stable insertion (each new
element is inserted after all already-placed elements whose key is `<=` its
own, which is exactly the stable ascending order). -/

/-- Stable insertion of `v` into a (sorted) list: `v` goes after every element
whose `published` key is `<=` its own. -/
def insortPub (v : ModrinthProjectVersion) :
    List ModrinthProjectVersion → List ModrinthProjectVersion
  | [] => [v]
  | w :: ws =>
    if pyLe w.published v.published then w :: insortPub v ws else v :: w :: ws

/-- `sorted(versions, key=lambda x: x.published)`. -/
def pySortedByPub (vs : List ModrinthProjectVersion) :
    List ModrinthProjectVersion :=
  vs.foldl (fun acc v => insortPub v acc) []

/-- One step of the "last maximum" fold: the later element wins when the keys
are `<=`-related (ties included). -/
def lastMaxStep (acc : Option ModrinthProjectVersion)
    (v : ModrinthProjectVersion) : Option ModrinthProjectVersion :=
  match acc with
  | none => some v
  | some a => if pyLe a.published v.published then some v else some a

/-- The element with the maximum `published` key, the later one in input order
winning ties (the specification's reading of `sorted(...)[-1]`). -/
def lastMaxPub (vs : List ModrinthProjectVersion) :
    Option ModrinthProjectVersion :=
  vs.foldl lastMaxStep none

/-- Lines 97-100 of `mod_session.py`: parse all raw entries, return the
no-match `Err` on an empty candidate list, otherwise `Ok` of the last element
of the stable ascending sort by `published`.  (The list is non-empty in the
final branch, so the `getLastD` default is never consulted.) -/
def parseAndSelect (response : Response) :
    Except String (Result ModrinthProjectVersion String) :=
  match response.json.mapM to_project_version with
  | .error e => .error e
  | .ok versions =>
    if versions.isEmpty then
      .ok (.Err "No versions found matching the given filters.")
    else
      .ok (.Ok ((pySortedByPub versions).getLastD default))

/-- `LabrinthSession.get_project_version` (`mod_session.py` lines 84-100).
Returns the outcome (a Python exception or a `Result`) together with the HTTP
calls performed.  When the first response is unsuccessful the source computes
`game_version.rsplit(".", 1) + ".x"`, a `list + str` addition that raises
`TypeError`; the retry request below that line is kept for shape but is
unreachable. -/
def get_project_version (env : Env) (project game_version : String)
    (loader : LoaderKind) :
    Except String (Result ModrinthProjectVersion String) × List HttpCall :=
  let response := versionQueryResponse env project game_version loader
  let c1 := versionQueryCall env project game_version loader
  if !response.ok then
    match pyAdd (PyVal.list (rsplitOnceDot game_version)) (PyVal.str ".x") with
    | .error e => (.error e, [c1])
    | .ok x_game_version =>
      let response2 := versionQueryResponse env project (pyStr x_game_version) loader
      let c2 := versionQueryCall env project (pyStr x_game_version) loader
      if !response2.ok then (.ok (.Err (response_str response2)), [c1, c2])
      else (parseAndSelect response2, [c1, c2])
  else (parseAndSelect response, [c1])

/-! ### File download (`mod_session.py` lines 102-115) -/

/-- UTF-8 encoding of one code point (1-4 bytes). -/
def utf8EncodeChar (c : Nat) : List Nat :=
  if c < 0x80 then [c]
  else if c < 0x800 then [0xC0 + c / 0x40, 0x80 + c % 0x40]
  else if c < 0x10000 then
    [0xE0 + c / 0x1000, 0x80 + (c / 0x40) % 0x40, 0x80 + c % 0x40]
  else
    [0xF0 + c / 0x40000, 0x80 + (c / 0x1000) % 0x40, 0x80 + (c / 0x40) % 0x40,
     0x80 + c % 0x40]

/-- `bytes(s, encoding="utf-8")`: the UTF-8 bytes of a string. -/
def utf8Bytes (s : String) : List Nat :=
  (s.toList.map (fun ch => utf8EncodeChar ch.toNat)).flatten

/-- `FileLink`'s f-string rendering (dataclass `__repr__`). -/
def fileLinkStr (fl : FileLink) : String :=
  "FileLink(url=" ++ pyRepr fl.url ++ ", filename=" ++ pyRepr fl.filename ++ ")"

/-- The loop of `download_project_version`: fetch each file url in order; an
unsuccessful response or an empty `bytes(response.text, "utf-8")` stops the
loop with `Err`.  Note the source takes `response.text` re-encoded as UTF-8,
not the raw `response.content`. -/
def downloadLoop (env : Env) :
    List FileLink → List (List Nat) → Result (List (List Nat)) String × List HttpCall
  | [], acc => (.Ok acc, [])
  | fl :: fls, acc =>
    let response := env.respond fl.url []
    if !response.ok then
      (.Err (fileLinkStr fl ++ ": " ++ response_str response), [{ url := fl.url, params := [] }])
    else
      let data := utf8Bytes response.text
      if data.isEmpty then
        (.Err (fileLinkStr fl ++ ": Downloaded file is empty."), [{ url := fl.url, params := [] }])
      else
        let rest := downloadLoop env fls (acc ++ [data])
        (rest.1, { url := fl.url, params := [] } :: rest.2)

/-- `LabrinthSession.download_project_version`. -/
def download_project_version (env : Env) (version : ModrinthProjectVersion) :
    Result (List (List Nat)) String × List HttpCall :=
  downloadLoop env version.files []

/-! ## Batch orchestration (`cli.py`) -/

/-- The `AttributeError` raised by `version.game_version` in
`_get_version_dependencies` (cli.py line 107): the
`ModrinthProjectVersion` dataclass declares `game_versions : list[str]` but no
singular `game_version` attribute. -/
def ModrinthProjectVersion.py_game_version (_v : ModrinthProjectVersion) :
    Except String String :=
  .error ("AttributeError: " ++ pyRepr "ModrinthProjectVersion"
    ++ " object has no attribute " ++ pyRepr "game_version")

/-- The `AttributeError` raised by `version.loader` in
`_get_version_dependencies`: the dataclass declares the plural `loaders` but
no singular `loader` attribute. -/
def ModrinthProjectVersion.py_loader (_v : ModrinthProjectVersion) :
    Except String LoaderKind :=
  .error ("AttributeError: " ++ pyRepr "ModrinthProjectVersion"
    ++ " object has no attribute " ++ pyRepr "loader")

/-- The loop of `_get_version_dependencies` (cli.py lines 106-112): for each
required dependency, read `version.game_version` and `version.loader` (the
attribute accesses above) and resolve `each.project_id` in that context;
the first `Err` short-circuits. -/
def depsLoop (env : Env) (version : ModrinthProjectVersion) :
    List VersionDependency → List ModrinthProjectVersion →
    Except String (Result (List ModrinthProjectVersion) String) × List HttpCall
  | [], acc => (.ok (.Ok acc), [])
  | dep :: deps, acc =>
    match version.py_game_version with
    | .error e => (.error e, [])
    | .ok gv =>
      match version.py_loader with
      | .error e => (.error e, [])
      | .ok loader =>
        match get_project_version env dep.project_id gv loader with
        | (.error e, t) => (.error e, t)
        | (.ok (.Err x), t) => (.ok (.Err x), t)
        | (.ok (.Ok x), t) =>
          let rest := depsLoop env version deps (acc ++ [x])
          (rest.1, t ++ rest.2)

/-- `cli._get_version_dependencies` (lines 98-113): filter the version's
dependencies to kind REQUIRED; an empty filtered list yields `Ok []` with no
network call, otherwise run the resolution loop. -/
def _get_version_dependencies (env : Env) (version : ModrinthProjectVersion) :
    Except String (Result (List ModrinthProjectVersion) String) × List HttpCall :=
  let depends := version.dependencies.filter
    (fun x => x.kind == DependencyKind.required)
  if depends.isEmpty then (.ok (.Ok []), [])
  else depsLoop env version depends []

/-- `cli._get_version` (lines 86-95): resolve one configured request; the
status-line printing and the `inspect`/`inspect_err` chaining (which returns
`self`) are presentation only. -/
def _get_version (env : Env) (project : ProjectVersion) :
    Except String (Result ModrinthProjectVersion String) × List HttpCall :=
  get_project_version env project.name project.game_version project.loader

/-- The loop of `cli._get_versions` (lines 125-131): resolve each required
request in order; the first `Err` (or Python exception) aborts the loop. -/
def getVersionsLoop (env : Env) :
    List ProjectVersion → List ModrinthProjectVersion →
    Except String (Result (List ModrinthProjectVersion) String) × List HttpCall
  | [], acc => (.ok (.Ok acc), [])
  | p :: ps, acc =>
    match _get_version env p with
    | (.error e, t) => (.error e, t)
    | (.ok (.Err x), t) => (.ok (.Err x), t)
    | (.ok (.Ok x), t) =>
      let rest := getVersionsLoop env ps (acc ++ [x])
      (rest.1, t ++ rest.2)

/-- `cli._get_versions` (lines 116-132). -/
def _get_versions (env : Env) (projects : List ProjectVersion) :
    Except String (Result (List ModrinthProjectVersion) String) × List HttpCall :=
  if projects.isEmpty then (.ok (.Ok []), [])
  else getVersionsLoop env projects []

/-- The loop of `cli._get_optional_versions` (lines 144-147): resolve each
optional request, keep `.ok()` results (a dataclass instance is always
truthy, so `if version:` appends exactly the `Ok` payloads), drop `Err`s. -/
def optionalLoop (env : Env) :
    List ProjectVersion → List ModrinthProjectVersion →
    Except String (Result (List ModrinthProjectVersion) String) × List HttpCall
  | [], acc => (.ok (.Ok acc), [])
  | p :: ps, acc =>
    match _get_version env p with
    | (.error e, t) => (.error e, t)
    | (.ok res, t) =>
      let acc' := match res.ok with
        | some v => acc ++ [v]
        | none => acc
      let rest := optionalLoop env ps acc'
      (rest.1, t ++ rest.2)

/-- `cli._get_optional_versions` (lines 135-148). -/
def _get_optional_versions (env : Env) (projects : List ProjectVersion) :
    Except String (Result (List ModrinthProjectVersion) String) × List HttpCall :=
  if projects.isEmpty then (.ok (.Ok []), [])
  else optionalLoop env projects []

/-- The `Ok` payload of one optional request's resolution, if any (used to
state what `_get_optional_versions` keeps). -/
def resolvedOk (env : Env) (p : ProjectVersion) :
    Option ModrinthProjectVersion :=
  match (_get_version env p).1 with
  | .ok (.Ok v) => some v
  | _ => none

/-- `cli._download` (lines 151-166): download one version's files; on `Ok`,
`write_all` writes each buffer to `<folder>/<filename>` (the write targets and
contents are returned as the middle component; on `Err` nothing is written). -/
def _download (env : Env) (version : ModrinthProjectVersion) (folder : String) :
    Result (List (List Nat)) String × List (String × List Nat) × List HttpCall :=
  let result := download_project_version env version
  let writes := match result.1 with
    | .Ok buffers =>
      (version.files.zip buffers).map
        (fun p => (folder ++ "/" ++ p.1.filename, p.2))
    | .Err _ => []
  (result.1, writes, result.2)

/-- The loop of `cli._download_all` (lines 177-180): download versions in
order; `if result.is_err(): return result` returns the first failing
version's `Err` immediately. -/
def downloadAllLoop (env : Env) (folder : String) :
    List ModrinthProjectVersion →
    Result Unit String × List (String × List Nat) × List HttpCall
  | [] => (.Ok (), [], [])
  | v :: vs =>
    match _download env v folder with
    | (.Err e, w, t) => (.Err e, w, t)
    | (.Ok _, w, t) =>
      let rest := downloadAllLoop env folder vs
      (rest.1, w ++ rest.2.1, t ++ rest.2.2)

/-- `cli._download_all` (lines 169-181): `Ok None` for an empty batch,
otherwise the loop above (the final `return Ok(None)` is the loop's nil case). -/
def _download_all (env : Env) (versions : List ModrinthProjectVersion)
    (folder : String) :
    Result Unit String × List (String × List Nat) × List HttpCall :=
  if versions.isEmpty then (.Ok (), [], [])
  else downloadAllLoop env folder versions

/-- The resolution phase of `cli.main` (lines 197-202), run with
`--validate` off: resolve the required list, escalate any `Err` fatally via
`.expect("Some error finding a required project")`, then resolve the optional
list, convert with `.ok()` and extend only when the optional list is truthy
(a non-empty Python list). -/
def mainResolve (env : Env) (config : MCModsConfig) :
    Except String (List ModrinthProjectVersion) × List HttpCall :=
  match _get_versions env config.projects with
  | (.error e, t1) => (.error e, t1)
  | (.ok res1, t1) =>
    match res1.expect "Some error finding a required project" with
    | .error e => (.error e, t1)
    | .ok versions =>
      match _get_optional_versions env config.optional_projects with
      | (.error e, t2) => (.error e, t1 ++ t2)
      | (.ok res2, t2) =>
        match res2.ok with
        | some optional =>
          (.ok (if optional.isEmpty then versions else versions ++ optional),
           t1 ++ t2)
        | none => (.ok versions, t1 ++ t2)

/-! ## Concrete fixtures for witnesses and counterexamples -/

/-- A successful catalog response carrying the given version entries. -/
def jsonResponse (entries : List RawEntry) : Response :=
  { status_code := 200, text := "", content := [], json := entries }

/-- A raw catalog entry fixture. -/
def mkEntry (nm id pub : String) : RawEntry :=
  { name := nm, id := id, project_id := nm, version_number := "1.0.0",
    files := [{ url := "https://cdn/" ++ id, filename := id ++ ".jar" }],
    game_versions := ["1.21.5"], loaders := ["fabric"],
    date_published := pub, dependencies := [] }

/-- Environment for C1: the queried project has two candidates with the same
`published` timestamp (a tie, to exercise last-wins). -/
def envC1 : Env :=
  { baseUrl := "https://x/",
    respond := fun url _ =>
      if url = "https://x/v2/project/sodium/version" then
        jsonResponse [mkEntry "sodium" "va" "2024-05-01T00:00:00Z",
                      mkEntry "sodium" "vb" "2024-05-01T00:00:00Z"]
      else jsonResponse [] }

/-- The parse of `mkEntry "sodium" "va" "2024-05-01T00:00:00Z"`. -/
def vC1a : ModrinthProjectVersion :=
  { name := "sodium", id_ := "va", project_id := "sodium",
    loaders := [.fabric], game_versions := ["1.21.5"], version := "1.0.0",
    files := [{ url := "https://cdn/va", filename := "va.jar" }],
    published := "2024-05-01T00:00:00Z", dependencies := [] }

/-- The parse of `mkEntry "sodium" "vb" "2024-05-01T00:00:00Z"` (same
`published` timestamp as `vC1a`: a tie). -/
def vC1b : ModrinthProjectVersion :=
  { name := "sodium", id_ := "vb", project_id := "sodium",
    loaders := [.fabric], game_versions := ["1.21.5"], version := "1.0.0",
    files := [{ url := "https://cdn/vb", filename := "vb.jar" }],
    published := "2024-05-01T00:00:00Z", dependencies := [] }

/-- Environment for C2 and C3: every request answers HTTP 500. -/
def envC2 : Env :=
  { baseUrl := "https://x/",
    respond := fun _ _ =>
      { status_code := 500, text := "Internal Server Error", content := [],
        json := [] } }

/-- A resolved version with one REQUIRED dependency (failing input for C3). -/
def vC3 : ModrinthProjectVersion :=
  { name := "sodium", id_ := "va", project_id := "sodium",
    loaders := [.fabric], game_versions := ["1.21.5"], version := "1.0.0",
    files := [{ url := "https://cdn/va", filename := "va.jar" }],
    published := "2024-05-01T00:00:00Z",
    dependencies := [{ version_id := "fapi-1", project_id := "fabric-api",
                       file_name := "", kind := .required }] }

/-- Environment for C4: `alpha` resolves, `beta` yields a well-formed but
empty candidate list (a plain `Err`, no exception). -/
def envC4 : Env :=
  { baseUrl := "https://x/",
    respond := fun url _ =>
      if url = "https://x/v2/project/alpha/version" then
        jsonResponse [mkEntry "alpha" "a1" "2024-01-01T00:00:00Z"]
      else jsonResponse [] }

/-- A configured request against game version 1.21.5 with the fabric loader. -/
def mkReq (nm : String) : ProjectVersion :=
  { name := nm, loader := .fabric, game_version := "1.21.5" }

/-- Config for C4: required `[alpha (ok), beta (fails)]`, optional `[gamma]`. -/
def configC4 : MCModsConfig :=
  { game_version := "1.21.5", loader := .fabric, api_url := "https://x/",
    projects := [mkReq "alpha", mkReq "beta"],
    optional_projects := [mkReq "gamma"] }

/-- Environment for C5: `cobble` and `emerald` resolve, `dust` yields an empty
candidate list (a plain `Err`, no exception). -/
def envC5 : Env :=
  { baseUrl := "https://x/",
    respond := fun url _ =>
      if url = "https://x/v2/project/cobble/version" then
        jsonResponse [mkEntry "cobble" "c1" "2024-01-01T00:00:00Z"]
      else if url = "https://x/v2/project/emerald/version" then
        jsonResponse [mkEntry "emerald" "e1" "2024-02-01T00:00:00Z"]
      else jsonResponse [] }

/-- Environment for C6: fetching `u1` fails with HTTP 500, fetching `u2`
succeeds with body text `abc`. -/
def envC6 : Env :=
  { baseUrl := "https://x/",
    respond := fun url _ =>
      if url = "u1" then
        { status_code := 500, text := "oops", content := [], json := [] }
      else
        { status_code := 200, text := "abc", content := [97, 98, 99], json := [] } }

/-- A version whose single file fetch fails in `envC6`. -/
def vBadC6 : ModrinthProjectVersion :=
  { name := "bad", id_ := "b1", project_id := "bad", loaders := [.fabric],
    game_versions := ["1.21.5"], version := "1.0.0",
    files := [{ url := "u1", filename := "bad.jar" }],
    published := "2024-01-01T00:00:00Z", dependencies := [] }

/-- A version whose single file fetch succeeds in `envC6`. -/
def vGoodC6 : ModrinthProjectVersion :=
  { name := "good", id_ := "g1", project_id := "good", loaders := [.fabric],
    game_versions := ["1.21.5"], version := "1.0.0",
    files := [{ url := "u2", filename := "good.jar" }],
    published := "2024-01-01T00:00:00Z", dependencies := [] }

/-- Environment for C7: the file url answers HTTP 404 with an empty body. -/
def envC7 : Env :=
  { baseUrl := "https://x/",
    respond := fun _ _ =>
      { status_code := 404, text := "", content := [], json := [] } }

/-- A version with one file link (used against `envC7`). -/
def vC7 : ModrinthProjectVersion :=
  { name := "seven", id_ := "s1", project_id := "seven", loaders := [.fabric],
    game_versions := ["1.21.5"], version := "1.0.0",
    files := [{ url := "u404", filename := "seven.jar" }],
    published := "2024-01-01T00:00:00Z", dependencies := [] }

/-- Environment for C9: the server sends the single raw byte `0xFF`; the
`requests` library decodes it (no codec maps a text back onto the lone byte
`0xFF`), here per ISO-8859-1 to the one-char text U+00FF. -/
def envC9 : Env :=
  { baseUrl := "https://x/",
    respond := fun _ _ =>
      { status_code := 200, text := String.singleton (Char.ofNat 255),
        content := [255], json := [] } }

/-- A version with one file link (used against `envC9`). -/
def vC9 : ModrinthProjectVersion :=
  { name := "nine", id_ := "n1", project_id := "nine", loaders := [.fabric],
    game_versions := ["1.21.5"], version := "1.0.0",
    files := [{ url := "u", filename := "data.bin" }],
    published := "2024-01-01T00:00:00Z", dependencies := [] }

/-! ## Order facts about the embedded Python string comparison -/

theorem pyLtChars_irrefl : ∀ x, pyLtChars x x = false
  | [] => rfl
  | a :: as => by simp [pyLtChars, pyLtChars_irrefl as]

theorem pyLtChars_asymm : ∀ x y, pyLtChars x y = true → pyLtChars y x = false
  | [], [], h => by simp [pyLtChars] at h
  | [], _ :: _, _ => rfl
  | _ :: _, [], h => by simp [pyLtChars] at h
  | a :: as, b :: bs, h => by
    by_cases hab : a.toNat < b.toNat
    · have hba : ¬ b.toNat < a.toNat := by omega
      simp [pyLtChars, hab, hba]
    · by_cases hba : b.toNat < a.toNat
      · simp [pyLtChars, hab, hba] at h
      · simp [pyLtChars, hab, hba] at h ⊢
        exact pyLtChars_asymm as bs h

theorem pyLtChars_trans :
    ∀ x y z, pyLtChars x y = true → pyLtChars y z = true → pyLtChars x z = true
  | [], [], _, h, _ => by simp [pyLtChars] at h
  | [], _ :: _, [], _, h' => by simp [pyLtChars] at h'
  | [], _ :: _, _ :: _, _, _ => rfl
  | _ :: _, [], _, h, _ => by simp [pyLtChars] at h
  | _ :: _, _ :: _, [], _, h' => by simp [pyLtChars] at h'
  | a :: as, b :: bs, c :: cs, h, h' => by
    by_cases hab : a.toNat < b.toNat
    · by_cases hbc : b.toNat < c.toNat
      · have hac : a.toNat < c.toNat := by omega
        simp [pyLtChars, hac]
      · by_cases hcb : c.toNat < b.toNat
        · simp [pyLtChars, hbc, hcb] at h'
        · have hbc' : b.toNat = c.toNat := by omega
          have hac : a.toNat < c.toNat := by omega
          simp [pyLtChars, hac]
    · by_cases hba : b.toNat < a.toNat
      · simp [pyLtChars, hab, hba] at h
      · have hab' : a.toNat = b.toNat := by omega
        by_cases hbc : b.toNat < c.toNat
        · have hac : a.toNat < c.toNat := by omega
          simp [pyLtChars, hac]
        · by_cases hcb : c.toNat < b.toNat
          · simp [pyLtChars, hbc, hcb] at h'
          · have hac : ¬ a.toNat < c.toNat := by omega
            have hca : ¬ c.toNat < a.toNat := by omega
            simp [pyLtChars, hab, hba] at h
            simp [pyLtChars, hbc, hcb] at h'
            simp [pyLtChars, hac, hca]
            exact pyLtChars_trans as bs cs h h'

theorem pyLtChars_eq_of_not_lt :
    ∀ x y, pyLtChars x y = false → pyLtChars y x = false → x = y
  | [], [], _, _ => rfl
  | [], _ :: _, h, _ => by simp [pyLtChars] at h
  | _ :: _, [], _, h' => by simp [pyLtChars] at h'
  | a :: as, b :: bs, h, h' => by
    by_cases hab : a.toNat < b.toNat
    · simp [pyLtChars, hab] at h
    · by_cases hba : b.toNat < a.toNat
      · simp [pyLtChars, hba] at h'
      · have hn : a.toNat = b.toNat := by omega
        have hc : a = b := Char.ext (UInt32.ext hn)
        simp [pyLtChars, hab, hba] at h h'
        have := pyLtChars_eq_of_not_lt as bs h h'
        simp [hc, this]

theorem pyLe_refl (x : String) : pyLe x x = true := by
  simp [pyLe, pyLt, pyLtChars_irrefl]

theorem pyLt_of_not_le {x y : String} (h : pyLe x y = false) : pyLt y x = true := by
  simpa [pyLe] using h

theorem pyLe_of_not_le {x y : String} (h : pyLe x y = false) : pyLe y x = true := by
  have hlt : pyLtChars y.data x.data = true := by
    simpa [pyLe, pyLt, String.toList] using h
  have h2 := pyLtChars_asymm _ _ hlt
  simp [pyLe, pyLt, String.toList, h2]

theorem pyLe_of_lt {x y : String} (h : pyLt x y = true) : pyLe x y = true := by
  have hlt : pyLtChars x.data y.data = true := by
    simpa [pyLt, String.toList] using h
  have h2 := pyLtChars_asymm _ _ hlt
  simp [pyLe, pyLt, String.toList, h2]

theorem pyLe_trans {x y z : String} (h : pyLe x y = true)
    (h' : pyLe y z = true) : pyLe x z = true := by
  simp only [pyLe, pyLt, String.toList, Bool.not_eq_true', Bool.not_eq_false'] at h h' ⊢
  by_cases hzx : pyLtChars z.data x.data = true
  · by_cases hyz : pyLtChars y.data z.data = true
    · exact absurd (pyLtChars_trans _ _ _ hyz hzx) (by simp [h])
    · have hyz' := pyLtChars_eq_of_not_lt _ _ (by simpa using hyz) h'
      rw [← hyz'] at hzx
      simp [hzx] at h
  · simpa using hzx

/-! ## Facts about the stable-sort selection -/

theorem getLast?_mem {α : Type} : ∀ (l : List α) (x : α), l.getLast? = some x → x ∈ l
  | [], x, h => by simp at h
  | [a], x, h => by
    simp [List.getLast?_singleton] at h
    simp [h]
  | a :: b :: l, x, h => by
    rw [List.getLast?_cons_cons] at h
    exact List.mem_cons_of_mem a (getLast?_mem (b :: l) x h)

theorem insortPub_ne_nil (v : ModrinthProjectVersion) :
    ∀ l, insortPub v l ≠ []
  | [] => by simp [insortPub]
  | w :: ws => by
    simp only [insortPub]
    split <;> simp

theorem mem_insortPub (v x : ModrinthProjectVersion) :
    ∀ l, x ∈ insortPub v l ↔ x = v ∨ x ∈ l
  | [] => by simp [insortPub]
  | w :: ws => by
    simp only [insortPub]
    split
    · simp only [List.mem_cons, mem_insortPub v x ws]
      tauto
    · simp only [List.mem_cons]

theorem insortPub_sorted (v : ModrinthProjectVersion) :
    ∀ l, List.Sorted (fun a b => pyLe a.published b.published = true) l →
      List.Sorted (fun a b => pyLe a.published b.published = true) (insortPub v l)
  | [], _ => by simp [insortPub]
  | w :: ws, h => by
    rw [List.sorted_cons] at h
    obtain ⟨hw, hws⟩ := h
    simp only [insortPub]
    split
    · rename_i hle
      rw [List.sorted_cons]
      refine ⟨?_, insortPub_sorted v ws hws⟩
      intro b hb
      rcases (mem_insortPub v b ws).mp hb with rfl | hb'
      · exact hle
      · exact hw b hb'
    · rename_i hle
      have hvw : pyLe v.published w.published = true :=
        pyLe_of_not_le (by simpa using hle)
      rw [List.sorted_cons]
      refine ⟨?_, by rw [List.sorted_cons]; exact ⟨hw, hws⟩⟩
      intro b hb
      rcases List.mem_cons.mp hb with rfl | hb'
      · exact hvw
      · exact pyLe_trans hvw (hw b hb')

theorem getLast?_insortPub (v : ModrinthProjectVersion) :
    ∀ l, List.Sorted (fun a b => pyLe a.published b.published = true) l →
      (insortPub v l).getLast? = lastMaxStep l.getLast? v
  | [], _ => by simp [insortPub, lastMaxStep]
  | w :: ws, h => by
    rw [List.sorted_cons] at h
    obtain ⟨hw, hws⟩ := h
    simp only [insortPub]
    split
    · rename_i hle
      cases hcase : insortPub v ws with
      | nil => exact absurd hcase (insortPub_ne_nil v ws)
      | cons c cs =>
        rw [List.getLast?_cons_cons, ← hcase, getLast?_insortPub v ws hws]
        cases ws with
        | nil => simp [lastMaxStep, hle]
        | cons b bs => rw [List.getLast?_cons_cons]
    · rename_i hle
      rw [List.getLast?_cons_cons]
      cases hlast : (w :: ws).getLast? with
      | none => simp at hlast
      | some a =>
        have ha := getLast?_mem _ _ hlast
        have hwa : pyLe w.published a.published = true := by
          rcases List.mem_cons.mp ha with rfl | ha'
          · exact pyLe_refl _
          · exact hw a ha'
        have hav : pyLe a.published v.published = false := by
          by_contra hc
          have hc' : pyLe a.published v.published = true := by simpa using hc
          exact hle (pyLe_trans hwa hc')
        simp [lastMaxStep, hav]

theorem foldl_insort_getLast? :
    ∀ (vs acc : List ModrinthProjectVersion),
      List.Sorted (fun a b => pyLe a.published b.published = true) acc →
      List.Sorted (fun a b => pyLe a.published b.published = true)
          (vs.foldl (fun a v => insortPub v a) acc) ∧
        (vs.foldl (fun a v => insortPub v a) acc).getLast?
          = vs.foldl lastMaxStep acc.getLast?
  | [], acc, h => ⟨h, rfl⟩
  | v :: vs, acc, h => by
    have hs := insortPub_sorted v acc h
    have hstep := getLast?_insortPub v acc h
    have hrec := foldl_insort_getLast? vs (insortPub v acc) hs
    simp only [List.foldl_cons]
    exact ⟨hrec.1, by rw [hrec.2, hstep]⟩

theorem pySortedByPub_getLast? (vs : List ModrinthProjectVersion) :
    (pySortedByPub vs).getLast? = lastMaxPub vs := by
  have h := foldl_insort_getLast? vs [] (by simp)
  simpa [pySortedByPub, lastMaxPub] using h.2

theorem foldl_lastMaxStep_isSome :
    ∀ (vs : List ModrinthProjectVersion) (a : ModrinthProjectVersion),
      ∃ v, vs.foldl lastMaxStep (some a) = some v
  | [], a => ⟨a, rfl⟩
  | v :: vs, a => by
    simp only [List.foldl_cons, lastMaxStep]
    split
    · exact foldl_lastMaxStep_isSome vs v
    · exact foldl_lastMaxStep_isSome vs a

theorem lastMaxPub_isSome {vs : List ModrinthProjectVersion} (h : vs ≠ []) :
    ∃ v, lastMaxPub vs = some v := by
  cases vs with
  | nil => exact absurd rfl h
  | cons a l =>
    simp only [lastMaxPub, List.foldl_cons, lastMaxStep]
    exact foldl_lastMaxStep_isSome l a

theorem lastMaxPub_split :
    ∀ (vs : List ModrinthProjectVersion) (v : ModrinthProjectVersion),
      lastMaxPub vs = some v →
      ∃ l₁ l₂, vs = l₁ ++ v :: l₂ ∧
        (∀ w ∈ l₁, pyLe w.published v.published = true) ∧
        (∀ w ∈ l₂, pyLt w.published v.published = true) := by
  intro vs
  induction vs using List.reverseRecOn with
  | nil => intro v h; simp [lastMaxPub] at h
  | append_singleton l a ih =>
    intro v h
    have hfold : lastMaxStep (lastMaxPub l) a = some v := by
      simpa [lastMaxPub, List.foldl_append] using h
    cases hl : lastMaxPub l with
    | none =>
      have hl' : l = [] := by
        cases l with
        | nil => rfl
        | cons b bs =>
          obtain ⟨w, hw⟩ := lastMaxPub_isSome (show b :: bs ≠ [] by simp)
          rw [hl] at hw
          cases hw
      rw [hl] at hfold
      simp only [lastMaxStep] at hfold
      have hav := Option.some.inj hfold
      subst hav
      exact ⟨[], [], by simp [hl'], by simp, by simp⟩
    | some u =>
      rw [hl] at hfold
      simp only [lastMaxStep] at hfold
      obtain ⟨l₁, l₂, hsplit, hle, hlt⟩ := ih u hl
      by_cases hua : pyLe u.published a.published = true
      · rw [if_pos hua] at hfold
        have hav := Option.some.inj hfold
        subst hav
        refine ⟨l, [], by simp, ?_, by simp⟩
        intro w hw
        rw [hsplit] at hw
        rcases List.mem_append.mp hw with hw1 | hw2
        · exact pyLe_trans (hle w hw1) hua
        · rcases List.mem_cons.mp hw2 with rfl | hw3
          · exact hua
          · exact pyLe_trans (pyLe_of_lt (hlt w hw3)) hua
      · rw [if_neg hua] at hfold
        have hav := Option.some.inj hfold
        subst hav
        refine ⟨l₁, l₂ ++ [a], by simp [hsplit], hle, ?_⟩
        intro w hw
        rcases List.mem_append.mp hw with hw1 | hw2
        · exact hlt w hw1
        · rcases List.mem_singleton.mp hw2 with rfl
          exact pyLt_of_not_le (by simpa using hua)

theorem getLastD_of_getLast? {l : List ModrinthProjectVersion}
    {v : ModrinthProjectVersion} (h : l.getLast? = some v)
    (d : ModrinthProjectVersion) : l.getLastD d = v := by
  rw [List.getLastD_eq_getLast?, h]
  rfl

theorem parseAndSelect_selects {response : Response}
    {vs : List ModrinthProjectVersion}
    (hparse : response.json.mapM to_project_version = Except.ok vs)
    (hne : vs ≠ []) :
    ∃ v l₁ l₂, parseAndSelect response = .ok (.Ok v) ∧ vs = l₁ ++ v :: l₂ ∧
      (∀ w ∈ l₁, pyLe w.published v.published = true) ∧
      (∀ w ∈ l₂, pyLt w.published v.published = true) := by
  obtain ⟨v, hv⟩ := lastMaxPub_isSome hne
  obtain ⟨l₁, l₂, hsplit, hle, hlt⟩ := lastMaxPub_split vs v hv
  refine ⟨v, l₁, l₂, ?_, hsplit, hle, hlt⟩
  have hlast : (pySortedByPub vs).getLast? = some v := by
    rw [pySortedByPub_getLast?, hv]
  have hempty : vs.isEmpty = false := by
    simpa [List.isEmpty_iff] using hne
  simp only [parseAndSelect]
  rw [hparse]
  simp [hempty, hlast]

/-! ## Claims -/

/-- Claim C1: for every non-empty candidate list returned (and parsed) from
the catalog query, `get_project_version` returns `Ok` of the candidate with
the maximum `publishedAt` timestamp under the lexicographic string ordering;
when two candidates tie, the one later in input order is selected: the chosen
`v` splits the parsed list as `l₁ ++ v :: l₂` with every earlier element
`<=` it and every later element strictly below it. -/
theorem c1_resolver_selects_latest_published (env : Env)
    (project game_version : String) (loader : LoaderKind)
    (vs : List ModrinthProjectVersion)
    (hok : (versionQueryResponse env project game_version loader).ok = true)
    (hparse : (versionQueryResponse env project game_version loader).json.mapM
        to_project_version = Except.ok vs)
    (hne : vs ≠ []) :
    ∃ v l₁ l₂,
      (get_project_version env project game_version loader).1
          = Except.ok (Result.Ok v) ∧
        vs = l₁ ++ v :: l₂ ∧
        (∀ w ∈ l₁, pyLe w.published v.published = true) ∧
        (∀ w ∈ l₂, pyLt w.published v.published = true) := by
  obtain ⟨v, l₁, l₂, hsel, hsplit, hle, hlt⟩ := parseAndSelect_selects hparse hne
  refine ⟨v, l₁, l₂, ?_, hsplit, hle, hlt⟩
  simp [get_project_version, hok, hsel]

/-- Witness for C1: in `envC1` the query yields two candidates with an equal
`published` timestamp; the resolver picks one that closes the list (the
later of the tie). -/
theorem c1_witness :
    ((versionQueryResponse envC1 "sodium" "1.21.5" LoaderKind.fabric).ok = true)
    ∧ ((versionQueryResponse envC1 "sodium" "1.21.5" LoaderKind.fabric).json.mapM
        to_project_version = Except.ok [vC1a, vC1b])
    ∧ ([vC1a, vC1b] ≠ ([] : List ModrinthProjectVersion))
    ∧ (∃ v l₁ l₂,
        (get_project_version envC1 "sodium" "1.21.5" LoaderKind.fabric).1
            = Except.ok (Result.Ok v) ∧
          [vC1a, vC1b] = l₁ ++ v :: l₂ ∧
          (∀ w ∈ l₁, pyLe w.published v.published = true) ∧
          (∀ w ∈ l₂, pyLt w.published v.published = true)) :=
  ⟨rfl, rfl, by simp,
    c1_resolver_selects_latest_published envC1 "sodium" "1.21.5" LoaderKind.fabric
      [vC1a, vC1b] rfl rfl (by simp)⟩

/-- Claim C2 (failing input): with game version `1.21.5` and a first query
answering HTTP 500, `get_project_version` does not retry with `1.21.x`: the
widening expression `game_version.rsplit(".", 1) + ".x"` adds a `list` and a
`str`, so the call raises `TypeError` after exactly one HTTP request (the
claim instead expects a second request with the token `1.21.x`).  A
successful-but-empty response indeed triggers no retry: it yields the
no-match `Err` after one request (second conjunct). -/
theorem c2_widening_retry_raises_type_error :
    (get_project_version envC2 "iris" "1.21.5" LoaderKind.fabric
        = (Except.error "TypeError: can only concatenate list (not \"str\") to list",
           [{ url := "https://x/v2/project/iris/version",
              params := [("loaders", "[\"fabric\"]"),
                         ("game_versions", "[\"1.21.5\"]")] }]))
    ∧ (get_project_version envC4 "nosuch" "1.21.5" LoaderKind.fabric
        = (Except.ok (Result.Err "No versions found matching the given filters."),
           [{ url := "https://x/v2/project/nosuch/version",
              params := [("loaders", "[\"fabric\"]"),
                         ("game_versions", "[\"1.21.5\"]")] }])) :=
  ⟨rfl, rfl⟩

/-- Claim C3 (failing input): on a resolved version with one REQUIRED
dependency, `_get_version_dependencies` raises `AttributeError` (the
`ModrinthProjectVersion` dataclass has no `game_version` attribute — the
fields are the plural `game_versions`/`loaders`) before any catalog request,
instead of resolving the dependency in the parent's context as the claim
states. -/
theorem c3_dependency_resolution_attribute_error :
    _get_version_dependencies envC2 vC3
      = (Except.error ("AttributeError: " ++ pyRepr "ModrinthProjectVersion"
          ++ " object has no attribute " ++ pyRepr "game_version"), []) :=
  rfl

/-- Claim C8 (failing input): `Ok(3).map(fun n => n + 1)` evaluates to the
bare value `4`, not to `Ok(4)` (the source returns `function(self.inner)`
without the `Ok` wrapper); the `Err` half of the claim does hold: `map` passes
any `Err` through unchanged. -/
theorem c8_map_ok_returns_bare_value :
    (Result.map (Result.Ok 3 : Result Nat String) (fun n => n + 1)
        = PyMapRet.raw 4)
    ∧ ((PyMapRet.raw 4 : PyMapRet Nat String) ≠ PyMapRet.res (Result.Ok 4))
    ∧ ∀ (e : String) (f : Nat → Nat),
        Result.map (Result.Err e : Result Nat String) f
          = PyMapRet.res (Result.Err e) :=
  ⟨rfl, by decide, fun _ _ => rfl⟩

/-- Claim C9 (failing input): the server sends the single raw byte `0xFF`
(decoded by the client to the one-character text U+00FF); the download code
returns `bytes(response.text, "utf-8") = [0xC3, 0xBF]`, not the raw body
bytes `[0xFF]` the claim promises. -/
theorem c9_download_returns_reencoded_text_not_raw_bytes :
    ((download_project_version envC9 vC9).1
        = Result.Ok [[195, 191]])
    ∧ ((envC9.respond "u" []).content = [255])
    ∧ (([[195, 191]] : List (List Nat)) ≠ [[255]]) :=
  ⟨rfl, rfl, by decide⟩

/-- Claim C10: every use of the abstract `Result` base class raises
`ResultError` — the constructor and each of the sixteen methods — so no value
of the base type is ever constructed, and every value of the embedded
`Result` sum type is an `Ok` or an `Err`. -/
theorem c10_base_result_unusable :
    result_base_init = Except.error result_type_error_msg
    ∧ result_base_repr = Except.error result_type_error_msg
    ∧ result_base_is_ok = Except.error result_type_error_msg
    ∧ result_base_is_ok_and = Except.error result_type_error_msg
    ∧ result_base_is_err = Except.error result_type_error_msg
    ∧ result_base_is_err_and = Except.error result_type_error_msg
    ∧ (∀ (O E : Type), result_base_inspect O E = Except.error result_type_error_msg)
    ∧ (∀ (O E : Type), result_base_inspect_err O E = Except.error result_type_error_msg)
    ∧ (∀ (O : Type), result_base_ok O = Except.error result_type_error_msg)
    ∧ (∀ (E : Type), result_base_err E = Except.error result_type_error_msg)
    ∧ (∀ (U E : Type), result_base_map U E = Except.error result_type_error_msg)
    ∧ (∀ (U E : Type), result_base_map_or U E = Except.error result_type_error_msg)
    ∧ (∀ (O U : Type), result_base_map_err O U = Except.error result_type_error_msg)
    ∧ (∀ (O : Type), result_base_expect O = Except.error result_type_error_msg)
    ∧ (∀ (O : Type), result_base_unwrap O = Except.error result_type_error_msg)
    ∧ (∀ (O : Type), result_base_expect_err O = Except.error result_type_error_msg)
    ∧ (∀ (O : Type), result_base_unwrap_err O = Except.error result_type_error_msg)
    ∧ (∀ (O E : Type) (r : Result O E),
        (∃ v, r = Result.Ok v) ∨ (∃ e, r = Result.Err e)) := by
  refine ⟨rfl, rfl, rfl, rfl, rfl, rfl, fun _ _ => rfl, fun _ _ => rfl,
    fun _ => rfl, fun _ => rfl, fun _ _ => rfl, fun _ _ => rfl, fun _ _ => rfl,
    fun _ => rfl, fun _ => rfl, fun _ => rfl, fun _ => rfl, ?_⟩
  intro O E r
  cases r with
  | Ok v => exact Or.inl ⟨v, rfl⟩
  | Err e => exact Or.inr ⟨e, rfl⟩

theorem getVersionsLoop_first_err (env : Env) (pbad : ProjectVersion)
    (ps₂ : List ProjectVersion) (e : String)
    (hbad : (_get_version env pbad).1 = Except.ok (Result.Err e)) :
    ∀ (ps₁ : List ProjectVersion) (acc : List ModrinthProjectVersion),
      (∀ p ∈ ps₁, ∃ v, (_get_version env p).1 = Except.ok (Result.Ok v)) →
      (getVersionsLoop env (ps₁ ++ pbad :: ps₂) acc).1 = Except.ok (Result.Err e)
  | [], acc, _ => by
    rcases hp : _get_version env pbad with ⟨r, t⟩
    rw [hp] at hbad
    simp only [Prod.fst] at hbad
    subst hbad
    simp [getVersionsLoop, hp]
  | p :: ps₁, acc, hok => by
    obtain ⟨v, hv⟩ := hok p (by simp)
    rcases hp : _get_version env p with ⟨r, t⟩
    rw [hp] at hv
    simp only [Prod.fst] at hv
    subst hv
    simp only [List.cons_append, getVersionsLoop, hp]
    exact getVersionsLoop_first_err env pbad ps₂ e hbad ps₁ (acc ++ [v])
      (fun q hq => hok q (by simp [hq]))

/-- Claim C4: in the mandatory batch pass, the first request whose resolution
returns `Err` aborts the pass — `_get_versions` returns that `Err` (no
partial success list) — and `main` escalates it fatally through `.expect`;
the calls `main` makes are exactly the mandatory pass's calls, so the
optional list is never resolved. -/
theorem c4_mandatory_first_err_is_fatal (env : Env) (config : MCModsConfig)
    (ps₁ : List ProjectVersion) (pbad : ProjectVersion)
    (ps₂ : List ProjectVersion) (e : String)
    (hsplit : config.projects = ps₁ ++ pbad :: ps₂)
    (hok : ∀ p ∈ ps₁, ∃ v, (_get_version env p).1 = Except.ok (Result.Ok v))
    (hbad : (_get_version env pbad).1 = Except.ok (Result.Err e)) :
    (_get_versions env config.projects).1 = Except.ok (Result.Err e) ∧
    mainResolve env config
      = (Except.error ("expect: " ++ "Some error finding a required project"
          ++ ": Err(" ++ pyRepr e ++ ")"),
         (_get_versions env config.projects).2) := by
  have h1 : (_get_versions env config.projects).1 = Except.ok (Result.Err e) := by
    rw [hsplit]
    have hne : (ps₁ ++ pbad :: ps₂).isEmpty = false := by simp
    simp only [_get_versions, hne, Bool.false_eq_true, if_false]
    exact getVersionsLoop_first_err env pbad ps₂ e hbad ps₁ [] hok
  refine ⟨h1, ?_⟩
  rcases hgv : _get_versions env config.projects with ⟨r, t⟩
  rw [hgv] at h1
  simp only [Prod.fst] at h1
  subst h1
  simp [mainResolve, hgv, Result.expect]

/-- Witness for C4 at `envC4`/`configC4`: required `[alpha (ok), beta (Err)]`,
optional `[gamma]`; the run fails fatally after `beta`. -/
theorem c4_witness :
    (configC4.projects = [mkReq "alpha"] ++ mkReq "beta" :: [])
    ∧ (∀ p ∈ [mkReq "alpha"], ∃ v,
        (_get_version envC4 p).1 = Except.ok (Result.Ok v))
    ∧ ((_get_version envC4 (mkReq "beta")).1
        = Except.ok (Result.Err "No versions found matching the given filters."))
    ∧ ((_get_versions envC4 configC4.projects).1
        = Except.ok (Result.Err "No versions found matching the given filters.")
      ∧ mainResolve envC4 configC4
          = (Except.error ("expect: " ++ "Some error finding a required project"
              ++ ": Err(" ++ pyRepr "No versions found matching the given filters."
              ++ ")"),
             (_get_versions envC4 configC4.projects).2)) := by
  refine ⟨rfl, ?_, rfl, ?_⟩
  · intro p hp
    simp only [List.mem_singleton] at hp
    subst hp
    exact ⟨_, rfl⟩
  · exact c4_mandatory_first_err_is_fatal envC4 configC4 [mkReq "alpha"]
      (mkReq "beta") [] "No versions found matching the given filters." rfl
      (by intro p hp
          simp only [List.mem_singleton] at hp
          subst hp
          exact ⟨_, rfl⟩)
      rfl

theorem optionalLoop_collects (env : Env) :
    ∀ (ps : List ProjectVersion) (acc : List ModrinthProjectVersion),
      (∀ p ∈ ps, ∃ r, (_get_version env p).1 = Except.ok r) →
      optionalLoop env ps acc
        = (Except.ok (Result.Ok (acc ++ ps.filterMap (resolvedOk env))),
           (ps.map (fun p => (_get_version env p).2)).flatten)
  | [], acc, _ => by simp [optionalLoop]
  | p :: ps, acc, hok => by
    obtain ⟨r, hr⟩ := hok p (by simp)
    rcases hp : _get_version env p with ⟨r', t⟩
    rw [hp] at hr
    simp only [Prod.fst] at hr
    subst hr
    simp only [optionalLoop, hp]
    rw [optionalLoop_collects env ps _ (fun q hq => hok q (by simp [hq]))]
    cases r with
    | Ok v =>
      simp [Result.ok, resolvedOk, hp, List.filterMap_cons]
    | Err x =>
      simp [Result.ok, resolvedOk, hp, List.filterMap_cons]

/-- Claim C5: in the optional batch pass, when every request's resolution
returns normally (an `Ok` or an `Err`, no exception), `_get_optional_versions`
always returns `Ok` of exactly the successfully resolved versions in request
order — each `Err` is dropped and resolution continues (the trace shows every
request was attempted) — so a single optional failure never aborts the
batch. -/
theorem c5_optional_pass_drops_failures (env : Env) (ps : List ProjectVersion)
    (hnorm : ∀ p ∈ ps, ∃ r, (_get_version env p).1 = Except.ok r) :
    _get_optional_versions env ps
      = (Except.ok (Result.Ok (ps.filterMap (resolvedOk env))),
         (ps.map (fun p => (_get_version env p).2)).flatten) := by
  cases ps with
  | nil => simp [_get_optional_versions]
  | cons p ps' =>
    have hne : (p :: ps').isEmpty = false := by simp
    simp only [_get_optional_versions, hne, Bool.false_eq_true, if_false]
    exact optionalLoop_collects env (p :: ps') [] hnorm

/-- Witness for C5 at `envC5` with the claim's shape `[C(ok), D(fails),
E(ok)]`: the pass returns `Ok` of exactly `cobble` and `emerald`; `dust` is
dropped. -/
theorem c5_witness :
    (∀ p ∈ [mkReq "cobble", mkReq "dust", mkReq "emerald"], ∃ r,
        (_get_version envC5 p).1 = Except.ok r)
    ∧ (_get_optional_versions envC5 [mkReq "cobble", mkReq "dust", mkReq "emerald"]
        = (Except.ok (Result.Ok
            ([mkReq "cobble", mkReq "dust", mkReq "emerald"].filterMap
              (resolvedOk envC5))),
           ([mkReq "cobble", mkReq "dust", mkReq "emerald"].map
              (fun p => (_get_version envC5 p).2)).flatten))
    ∧ (([mkReq "cobble", mkReq "dust", mkReq "emerald"].filterMap
          (resolvedOk envC5)).map (fun v => v.name) = ["cobble", "emerald"]) := by
  have hnorm : ∀ p ∈ [mkReq "cobble", mkReq "dust", mkReq "emerald"], ∃ r,
      (_get_version envC5 p).1 = Except.ok r := by
    intro p hp
    simp only [List.mem_cons, List.mem_singleton] at hp
    rcases hp with rfl | rfl | hp
    · exact ⟨_, rfl⟩
    · exact ⟨_, rfl⟩
    · rcases hp with rfl | h
      · exact ⟨_, rfl⟩
      · cases h
  exact ⟨hnorm,
    c5_optional_pass_drops_failures envC5
      [mkReq "cobble", mkReq "dust", mkReq "emerald"] hnorm, rfl⟩

theorem downloadAllLoop_first_err (env : Env) (folder : String)
    (vbad : ModrinthProjectVersion) (vs₂ : List ModrinthProjectVersion)
    (e : String) (hbad : (_download env vbad folder).1 = Result.Err e) :
    ∀ (vs₁ : List ModrinthProjectVersion),
      (∀ v ∈ vs₁, (_download env v folder).1.is_ok = true) →
      (downloadAllLoop env folder (vs₁ ++ vbad :: vs₂)).1 = Result.Err e ∧
      (downloadAllLoop env folder (vs₁ ++ vbad :: vs₂)).2.2
        = ((vs₁ ++ [vbad]).map (fun v => (_download env v folder).2.2)).flatten
  | [], _ => by
    rcases hd : _download env vbad folder with ⟨r, w, t⟩
    rw [hd] at hbad
    simp only [Prod.fst] at hbad
    subst hbad
    simp [downloadAllLoop, hd]
  | v :: vs₁, hok => by
    have hv := hok v (by simp)
    rcases hd : _download env v folder with ⟨r, w, t⟩
    rw [hd] at hv
    simp only [Prod.fst] at hv
    cases r with
    | Err x => simp [Result.is_ok] at hv
    | Ok bufs =>
      have hrec := downloadAllLoop_first_err env folder vbad vs₂ e hbad vs₁
        (fun q hq => hok q (by simp [hq]))
      simp only [List.cons_append, downloadAllLoop, hd]
      simp [hrec.1, hrec.2, hd]

/-- Claim C6, counterexample: in the batch `[vBadC6 (file fetch fails),
vGoodC6 (would succeed)]` the download phase returns the failing version's
`Err`, performs no write, and makes no request for `vGoodC6`'s file (only
`u1` is ever fetched) — the claim instead says downloading continues for the
remaining versions of the batch. -/
theorem c6_counterexample_download_aborts_batch :
    ((_download_all envC6 [vBadC6, vGoodC6] "mods").1
        = Result.Err ("FileLink(url=" ++ pyRepr "u1" ++ ", filename="
            ++ pyRepr "bad.jar" ++ "): Response(status_code=500, text="
            ++ pyRepr "oops" ++ ")"))
    ∧ ((_download_all envC6 [vBadC6, vGoodC6] "mods").2.2
        = [{ url := "u1", params := [] }])
    ∧ ((_download_all envC6 [vBadC6, vGoodC6] "mods").2.1 = []) :=
  ⟨rfl, rfl, rfl⟩

/-- Claim C6 as amended: when one version's download fails, its per-version
`Err` is produced, but the first failure aborts the whole download phase —
`_download_all` returns that `Err` immediately and the versions after the
failing one are never attempted (the calls made are exactly those of the
versions up to and including the failing one). -/
theorem c6_amended_first_download_err_aborts (env : Env) (folder : String)
    (vs₁ : List ModrinthProjectVersion) (vbad : ModrinthProjectVersion)
    (vs₂ : List ModrinthProjectVersion) (e : String)
    (hok : ∀ v ∈ vs₁, (_download env v folder).1.is_ok = true)
    (hbad : (_download env vbad folder).1 = Result.Err e) :
    (_download_all env (vs₁ ++ vbad :: vs₂) folder).1 = Result.Err e ∧
    (_download_all env (vs₁ ++ vbad :: vs₂) folder).2.2
      = ((vs₁ ++ [vbad]).map (fun v => (_download env v folder).2.2)).flatten := by
  have hne : (vs₁ ++ vbad :: vs₂).isEmpty = false := by simp
  simp only [_download_all, hne, Bool.false_eq_true, if_false]
  exact downloadAllLoop_first_err env folder vbad vs₂ e hbad vs₁ hok

/-- Witness for the amended C6 at `envC6`: batch `[vBadC6, vGoodC6]`, the
failure of `vBadC6` aborts the phase. -/
theorem c6_amended_witness :
    (∀ v ∈ ([] : List ModrinthProjectVersion),
        (_download envC6 v "mods").1.is_ok = true)
    ∧ ((_download envC6 vBadC6 "mods").1
        = Result.Err ("FileLink(url=" ++ pyRepr "u1" ++ ", filename="
            ++ pyRepr "bad.jar" ++ "): Response(status_code=500, text="
            ++ pyRepr "oops" ++ ")"))
    ∧ ((_download_all envC6 ([] ++ vBadC6 :: [vGoodC6]) "mods").1
        = Result.Err ("FileLink(url=" ++ pyRepr "u1" ++ ", filename="
            ++ pyRepr "bad.jar" ++ "): Response(status_code=500, text="
            ++ pyRepr "oops" ++ ")")
      ∧ (_download_all envC6 ([] ++ vBadC6 :: [vGoodC6]) "mods").2.2
          = (([] ++ [vBadC6]).map
              (fun v => (_download envC6 v "mods").2.2)).flatten) :=
  ⟨fun v hv => absurd hv (List.not_mem_nil v), rfl,
    c6_amended_first_download_err_aborts envC6 "mods" [] vBadC6 [vGoodC6] _
      (fun v hv => absurd hv (List.not_mem_nil v)) rfl⟩

theorem downloadLoop_err_of_bad (env : Env) :
    ∀ (fls : List FileLink) (acc : List (List Nat)),
      (∀ fl ∈ fls, (env.respond fl.url []).content = [] →
        (env.respond fl.url []).text = "") →
      (∃ fl ∈ fls, (env.respond fl.url []).ok = false ∨
        (env.respond fl.url []).content = []) →
      (downloadLoop env fls acc).1.is_err = true
  | [], _, _, hbad => by simp at hbad
  | fl :: fls, acc, hcon, hbad => by
    by_cases hok : (env.respond fl.url []).ok = true
    · by_cases hdata : (utf8Bytes (env.respond fl.url []).text).isEmpty = true
      · simp [downloadLoop, hok, hdata, Result.is_err]
      · have hwit : ∃ fl' ∈ fls, (env.respond fl'.url []).ok = false ∨
            (env.respond fl'.url []).content = [] := by
          obtain ⟨g, hg, hgbad⟩ := hbad
          rcases List.mem_cons.mp hg with rfl | hg'
          · rcases hgbad with h1 | h2
            · rw [hok] at h1
              simp at h1
            · have ht := hcon g (by simp) h2
              rw [ht] at hdata
              have h0 : utf8Bytes ("" : String) = [] := rfl
              rw [h0] at hdata
              exact absurd rfl hdata
          · exact ⟨g, hg', hgbad⟩
        have hrec := downloadLoop_err_of_bad env fls
          (acc ++ [utf8Bytes (env.respond fl.url []).text])
          (fun q hq => hcon q (by simp [hq])) hwit
        simpa [downloadLoop, hok, hdata] using hrec
    · have hok' : (env.respond fl.url []).ok = false := by
        simpa using hok
      simp [downloadLoop, hok', Result.is_err]

/-- Claim C7: for every resolved version, if some file fetch answers an
unsuccessful response or a zero-length payload (with the `requests` contract
that an empty body decodes to the empty text), `download_project_version`
returns `Err` and `_download` writes no file of that version to disk. -/
theorem c7_failed_fetch_writes_nothing (env : Env)
    (version : ModrinthProjectVersion) (folder : String)
    (hcontract : ∀ fl ∈ version.files,
      (env.respond fl.url []).content = [] → (env.respond fl.url []).text = "")
    (hbad : ∃ fl ∈ version.files, (env.respond fl.url []).ok = false ∨
      (env.respond fl.url []).content = []) :
    (download_project_version env version).1.is_err = true ∧
    (_download env version folder).2.1 = [] := by
  have herr : (download_project_version env version).1.is_err = true :=
    downloadLoop_err_of_bad env version.files [] hcontract hbad
  refine ⟨herr, ?_⟩
  cases hd : (download_project_version env version).1 with
  | Ok v =>
    rw [hd] at herr
    simp [Result.is_err] at herr
  | Err e =>
    simp [_download, hd]

/-- Witness for C7 at `envC7`/`vC7`: the single file fetch answers HTTP 404,
so the download errs and nothing is written. -/
theorem c7_witness :
    (∀ fl ∈ vC7.files, (envC7.respond fl.url []).content = [] →
      (envC7.respond fl.url []).text = "")
    ∧ (∃ fl ∈ vC7.files, (envC7.respond fl.url []).ok = false ∨
        (envC7.respond fl.url []).content = [])
    ∧ ((download_project_version envC7 vC7).1.is_err = true
      ∧ (_download envC7 vC7 "mods").2.1 = []) :=
  ⟨fun _ _ _ => rfl,
   ⟨{ url := "u404", filename := "seven.jar" }, by simp [vC7], Or.inl rfl⟩,
   c7_failed_fetch_writes_nothing envC7 vC7 "mods" (fun _ _ _ => rfl)
     ⟨{ url := "u404", filename := "seven.jar" }, by simp [vC7], Or.inl rfl⟩⟩
